import Mathlib

/-!
Verification of the auto-heal decision engine and lifecycle helpers.

Shallow embedding of the Python sources:
- `src/decision_engine/repair_priority.py`
- `src/decision_engine/decision_model.py`
- `src/lambda/utils/helpers.py`
- `src/lambda/diagnostics/handler.py`
- `src/lambda/auto_heal/handler.py`
- `src/lambda/verify/handler.py`
- `src/lambda/target_monitor/handler.py`

Python floats are modelled as rationals (`ℚ`), Python ints as `Int`,
dictionary fields that may be absent as `Option` values read back with the
same defaults the Python `dict.get` calls use, and fallible external probes
as explicit `Except` inputs.
-/

namespace AutoHealSpec

/- `FailurePriority` from `repair_priority.py`: an `IntEnum` with
CRITICAL=1, HIGH=2, MEDIUM=3, LOW=4, UNKNOWN=0. Modelled as `Nat` constants. -/
namespace FailurePriority

def CRITICAL : Nat := 1

def HIGH : Nat := 2

def MEDIUM : Nat := 3

def LOW : Nat := 4

def UNKNOWN : Nat := 0

end FailurePriority

/-- `PRIORITY_MAP` from `repair_priority.py`, as an association list. -/
def PRIORITY_MAP : List (String × Nat) :=
  [("Application Failure", FailurePriority.CRITICAL),
   ("OS-level Failure", FailurePriority.CRITICAL),
   ("Disk Corruption", FailurePriority.CRITICAL),
   ("Agent Failure", FailurePriority.HIGH),
   ("Resource Bottleneck", FailurePriority.MEDIUM),
   ("Network Degradation", FailurePriority.MEDIUM),
   ("Unknown State", FailurePriority.UNKNOWN)]

/-- `PRIORITY_MAP.get(classification, FailurePriority.UNKNOWN)`. -/
def priority_map_get (classification : String) : Nat :=
  (PRIORITY_MAP.lookup classification).getD FailurePriority.UNKNOWN

/-- `calculate_repair_priority` from `repair_priority.py`: base priority from
`PRIORITY_MAP` (default UNKNOWN), then forced to CRITICAL when the score is
below 20, lowered numerically to `min base HIGH` when the score is below 40,
and finally forced to CRITICAL when there were at least two repair attempts. -/
def calculate_repair_priority (classification : String) (diagnostic_score : ℚ)
    (repair_attempts : Int) : Nat :=
  let base := priority_map_get classification
  let base :=
    if diagnostic_score < 20 then FailurePriority.CRITICAL
    else if diagnostic_score < 40 then min base FailurePriority.HIGH
    else base
  if repair_attempts ≥ 2 then FailurePriority.CRITICAL
  else base

/-- Per-instance configuration record (`instance_config` dict); the Python
code reads it with `instance_config.get('skip_recovery', False)`. -/
structure InstanceConfig where
  skip_recovery : Option Bool

/-- `should_skip_repair` from `repair_priority.py`. -/
def should_skip_repair (classification : String) (diagnostic_score : ℚ)
    (instance_config : InstanceConfig) : Bool :=
  if instance_config.skip_recovery.getD false then true
  else if diagnostic_score < 10 then true
  else if (["OS-level Failure", "Disk Corruption"] : List String).contains classification then true
  else false

/-- `get_repair_timeout` from `repair_priority.py`: the per-classification
repair timeout table, default 300 seconds. -/
def get_repair_timeout (classification : String) : Nat :=
  (([("Application Failure", 300),
     ("Resource Bottleneck", 600),
     ("Agent Failure", 900),
     ("Network Degradation", 600),
     ("OS-level Failure", 0),
     ("Disk Corruption", 0),
     ("Unknown State", 300)] : List (String × Nat)).lookup classification).getD 300

/-- `should_replace_instance` (identical code in `decision_model.py` and
`utils/helpers.py`): replace when the score is below 30 or at least two
repair attempts were made. -/
def should_replace_instance (diagnostic_score : ℚ) (repair_attempts : Int) : Bool :=
  if diagnostic_score < 30 then true
  else if repair_attempts ≥ 2 then true
  else false

/-- The decision dict built by `AutoHealDecision.decide` in
`decision_model.py` (the human-readable `reason` string is not modelled). -/
structure Decision where
  action : Option String
  priority : Nat
  timeout_seconds : Nat
  skip : Bool
deriving DecidableEq, Repr

/-- `AutoHealDecision.decide` from `decision_model.py`: skip check first,
then priority, then the repair/replace choice with its timeout. -/
def AutoHealDecision.decide (classification : String) (diagnostic_score : ℚ)
    (repair_attempts : Int) (instance_config : InstanceConfig) : Decision :=
  if should_skip_repair classification diagnostic_score instance_config then
    { action := none, priority := 0, timeout_seconds := 0, skip := true }
  else
    let priority := calculate_repair_priority classification diagnostic_score repair_attempts
    if should_replace_instance diagnostic_score repair_attempts then
      { action := some "replace", priority := priority, timeout_seconds := 1800, skip := false }
    else
      { action := some "repair", priority := priority,
        timeout_seconds := get_repair_timeout classification, skip := false }

/-- The diagnostics dict assembled by `_run_ssm_diagnostics` in
`diagnostics/handler.py` and consumed by `_classify_failure` and
`calculate_diagnostic_score`. Every field is read back with `dict.get`,
so absent keys are `none` here and fall back to the Python defaults
(`False` for flags, `0` for metrics). -/
structure Diagnostics where
  application_failure : Option Bool := none
  resource_bottleneck : Option Bool := none
  agent_failure : Option Bool := none
  os_level_failure : Option Bool := none
  network_degradation : Option Bool := none
  disk_corruption : Option Bool := none
  unknown_state : Option Bool := none
  cpu_usage : Option ℚ := none
  memory_usage : Option ℚ := none
  ssm_agent_failure : Option Bool := none
  cloudwatch_agent_failure : Option Bool := none

/-- `calculate_diagnostic_score` from `utils/helpers.py`: start at 100,
subtract the fixed penalties, clamp to a floor of 0. -/
def calculate_diagnostic_score (diagnostics : Diagnostics) : ℚ :=
  let score : ℚ := 100
  let score := if diagnostics.application_failure.getD false then score - 40 else score
  let cpu_usage := diagnostics.cpu_usage.getD 0
  let score := if cpu_usage > 90 then score - 20
    else if cpu_usage > 80 then score - 10
    else score
  let memory_usage := diagnostics.memory_usage.getD 0
  let score := if memory_usage > 90 then score - 20
    else if memory_usage > 80 then score - 10
    else score
  let score := if diagnostics.disk_corruption.getD false then score - 30 else score
  let score := if diagnostics.network_degradation.getD false then score - 15 else score
  let score := if diagnostics.ssm_agent_failure.getD false then score - 25 else score
  let score := if diagnostics.cloudwatch_agent_failure.getD false then score - 10 else score
  max 0 score

/-- `_classify_failure` from `diagnostics/handler.py`: first-match
if/elif chain over the diagnostic flags. -/
def classify_failure (diagnostics : Diagnostics) : String :=
  if diagnostics.application_failure.getD false then "Application Failure"
  else if diagnostics.disk_corruption.getD false then "Disk Corruption"
  else if diagnostics.os_level_failure.getD false then "OS-level Failure"
  else if diagnostics.network_degradation.getD false then "Network Degradation"
  else if diagnostics.agent_failure.getD false then "Agent Failure"
  else if diagnostics.resource_bottleneck.getD false then "Resource Bottleneck"
  else if diagnostics.unknown_state.getD false then "Unknown State"
  else "Unknown State"

/-- The auto-heal trigger condition on line 63 of `diagnostics/handler.py`:
after classification and scoring, `_trigger_auto_heal` is called iff
`diagnostic_score < 70 or failure_classification in
['Application Failure', 'OS-level failure', 'Disk Corruption']`. -/
def diagnostics_triggers_auto_heal (diagnostics : Diagnostics) : Bool :=
  let failure_classification := classify_failure diagnostics
  let diagnostic_score := calculate_diagnostic_score diagnostics
  (if diagnostic_score < 70 then true else false) ||
    (["Application Failure", "OS-level Failure", "Disk Corruption"] : List String).contains
      failure_classification

/-- One entry of the target health history; `check_flapping` reads each
entry with `item.get('state', '')`. -/
structure HealthEvent where
  state : Option String
deriving DecidableEq, Repr

/-- The transition count computed by the loop in `check_flapping`
(`utils/helpers.py`): the number of adjacent pairs whose states differ,
each state read with default `''`. -/
def state_changes : List HealthEvent → Nat
  | a :: b :: rest =>
      (if a.state.getD "" ≠ b.state.getD "" then 1 else 0) + state_changes (b :: rest)
  | _ => 0

/-- `check_flapping` from `utils/helpers.py`: false when the history is
shorter than `threshold * 2`, otherwise true iff the number of adjacent
state changes reaches `threshold` (default 3). -/
def check_flapping (health_history : List HealthEvent) (threshold : Nat) : Bool :=
  if health_history.length < threshold * 2 then false
  else if state_changes health_history ≥ threshold then true else false

/-- A history that alternates state on every sample: every adjacent pair of
entries has differing states. -/
def alternates : List HealthEvent → Bool
  | a :: b :: rest => (a.state.getD "" != b.state.getD "") && alternates (b :: rest)
  | _ => true

/-- The outcome of the auto-heal `lambda_handler` core
(`auto_heal/handler.py`, lines 46-79) once the instance id is extracted and
the external reads (instance config, cooldown check, repair-attempt count)
are resolved: skip on `skip_recovery`, then on cooldown, otherwise replace
or repair per `should_replace_instance`. -/
inductive HandlerOutcome where
  | skippedConfig
  | inCooldown
  | act (action : String)
deriving DecidableEq, Repr

/-- The remediation execution path of `auto_heal/handler.py`: note it never
consults `should_skip_repair` — only the `skip_recovery` flag and the
cooldown guard can prevent a repair/replace action. -/
def auto_heal_handler_action (instance_config : InstanceConfig) (in_cooldown : Bool)
    (diagnostic_score : ℚ) (repair_attempts : Int) : HandlerOutcome :=
  if instance_config.skip_recovery.getD false then .skippedConfig
  else if in_cooldown then .inCooldown
  else if should_replace_instance diagnostic_score repair_attempts then .act "replace"
  else .act "repair"

/-- Result record of a single verification check in `verify/handler.py`
(the `message` string is not modelled). -/
structure CheckResult where
  passed : Bool
deriving DecidableEq, Repr

/-- `_check_ssm_online`: passes iff the instance information list is
non-empty and its head's `PingStatus` is `Online`; a raised exception
leaves `passed` false. -/
def check_ssm_online (probe : Except String (List (Option String))) : CheckResult :=
  match probe with
  | .error _ => { passed := false }
  | .ok instance_info =>
      match instance_info with
      | [] => { passed := false }
      | info :: _ => { passed := info.getD "" == "Online" }

/-- `_check_app_health_endpoint`: passes iff the probed HTTP status output
is `200` or starts with `2`; any exception leaves `passed` false. -/
def check_app_health_endpoint (probe : Except String String) : CheckResult :=
  match probe with
  | .error _ => { passed := false }
  | .ok output => { passed := output == "200" || output.startsWith "2" }

/-- `_check_resource_usage` in `verify/handler.py`: passes iff both probed
usages are below 90; any exception leaves `passed` false. -/
def check_resource_usage (probe : Except String (ℚ × ℚ)) : CheckResult :=
  match probe with
  | .error _ => { passed := false }
  | .ok usage => { passed := if usage.1 < 90 ∧ usage.2 < 90 then true else false }

/-- `_check_log_anomalies`: passes iff the probed error count is below 10;
but on an exception the code sets `passed = True` ("if we can't check
logs, assume passed (non-critical)"). -/
def check_log_anomalies (probe : Except String Int) : CheckResult :=
  match probe with
  | .error _ => { passed := true }
  | .ok error_count => { passed := if error_count < 10 then true else false }

/-- `_simulate_lb_health_check`: sets `passed = True` once the lookups
succeed; any exception leaves `passed` false. -/
def simulate_lb_health_check (probe : Except String Unit) : CheckResult :=
  match probe with
  | .error _ => { passed := false }
  | .ok _ => { passed := true }

/-- The five probe outcomes consumed by one verification run. -/
structure VerifyProbes where
  ssm_online : Except String (List (Option String))
  app_health : Except String String
  resource_usage : Except String (ℚ × ℚ)
  log_anomalies : Except String Int
  lb_health_simulation : Except String Unit

/-- The result dict built by `_run_verification_checks`. -/
structure VerificationResult where
  all_checks_passed : Bool
  failed_checks : List String
deriving DecidableEq, Repr

/-- `_run_verification_checks` from `verify/handler.py`: run the five
checks in order, collect the names of those that did not pass, and set
`all_checks_passed` iff `failed_checks` is empty. -/
def run_verification_checks (probes : VerifyProbes) : VerificationResult :=
  let failed0 : List String := []
  let failed1 := if (check_ssm_online probes.ssm_online).passed then failed0
    else failed0 ++ ["ssm_online"]
  let failed2 := if (check_app_health_endpoint probes.app_health).passed then failed1
    else failed1 ++ ["app_health"]
  let failed3 := if (check_resource_usage probes.resource_usage).passed then failed2
    else failed2 ++ ["resource_usage"]
  let failed4 := if (check_log_anomalies probes.log_anomalies).passed then failed3
    else failed3 ++ ["log_anomalies"]
  let failed5 := if (simulate_lb_health_check probes.lb_health_simulation).passed then failed4
    else failed4 ++ ["lb_health_simulation"]
  { all_checks_passed := failed5.length == 0, failed_checks := failed5 }

/-- The re-registration decision in the verify `lambda_handler`: the
instance is re-registered iff `all_checks_passed`. -/
def verify_reregisters (probes : VerifyProbes) : Bool :=
  (run_verification_checks probes).all_checks_passed

/-- Every base priority in `PRIORITY_MAP` (and the UNKNOWN default) is at
most MEDIUM = 3; in particular no classification maps to LOW = 4. -/
theorem priority_map_get_le_three (c : String) : priority_map_get c ≤ 3 := by
  simp only [priority_map_get, PRIORITY_MAP, List.lookup]
  repeat' split
  all_goals
    simp [FailurePriority.CRITICAL, FailurePriority.HIGH, FailurePriority.MEDIUM,
      FailurePriority.UNKNOWN]

/-- The computed priority is always at most 3. -/
theorem calculate_repair_priority_le_three (c : String) (s : ℚ) (a : Int) :
    calculate_repair_priority c s a ≤ 3 := by
  have h := priority_map_get_le_three c
  unfold calculate_repair_priority
  split_ifs <;>
    simp only [FailurePriority.CRITICAL, FailurePriority.HIGH] <;>
    omega

/-- With at least two repair attempts the priority is CRITICAL = 1. -/
theorem calculate_repair_priority_attempts (c : String) (s : ℚ) (a : Int) (ha : a ≥ 2) :
    calculate_repair_priority c s a = 1 := by
  unfold calculate_repair_priority
  simp [ha, FailurePriority.CRITICAL]

/-- C2: for every classification string, diagnostic score, and
repair-attempt count, `calculate_repair_priority` returns a value in
{0,1,2,3,4}, and whenever `repair_attempts ≥ 2` it returns 1 (CRITICAL),
regardless of classification or score. -/
theorem C2_priority_range_and_attempt_override (c : String) (s : ℚ) (a : Int) :
    calculate_repair_priority c s a ∈ ([0, 1, 2, 3, 4] : List Nat) ∧
      (a ≥ 2 → calculate_repair_priority c s a = 1) := by
  constructor
  · have h := calculate_repair_priority_le_three c s a
    interval_cases h : calculate_repair_priority c s a <;> simp
  · exact fun ha => calculate_repair_priority_attempts c s a ha

/-- C2 witness: evaluation at a concrete input. -/
theorem C2_priority_range_and_attempt_override_witness :
    calculate_repair_priority "Network Degradation" 80 3 ∈ ([0, 1, 2, 3, 4] : List Nat) ∧
      calculate_repair_priority "Network Degradation" 80 3 = 1 := by
  have h := C2_priority_range_and_attempt_override "Network Degradation" 80 3
  exact ⟨h.1, h.2 (by norm_num)⟩

/-- C10: `calculate_repair_priority` never returns 4 (LOW): its range is
exactly {0, 1, 2, 3} — every value is at most 3 and each of 0, 1, 2, 3 is
attained. -/
theorem C10_priority_never_low :
    (∀ (c : String) (s : ℚ) (a : Int),
      calculate_repair_priority c s a ≠ 4 ∧ calculate_repair_priority c s a ≤ 3) ∧
    calculate_repair_priority "Unknown State" 50 0 = 0 ∧
    calculate_repair_priority "Application Failure" 50 0 = 1 ∧
    calculate_repair_priority "Agent Failure" 50 0 = 2 ∧
    calculate_repair_priority "Resource Bottleneck" 50 0 = 3 := by
  refine ⟨fun c s a => ?_, by decide, by decide, by decide, by decide⟩
  have h := calculate_repair_priority_le_three c s a
  exact ⟨by omega, h⟩

/-- Modelled from the spec's urgency order `CRITICAL < HIGH < MEDIUM < LOW
< UNKNOWN` on the integer levels {1,2,3,4,0}: the position of a priority
level in that order (0 = most urgent). -/
def spec_urgency_rank : Nat → Nat
  | 1 => 0
  | 2 => 1
  | 3 => 2
  | 4 => 3
  | _ => 4

/-- Modelled from the spec's words "the more urgent of the two wins": the
element of the pair that is more urgent in the spec's urgency order. -/
def spec_more_urgent (p q : Nat) : Nat :=
  if spec_urgency_rank p ≤ spec_urgency_rank q then p else q

/-- C5 counterexample: for classification "Unknown State" (base priority
UNKNOWN = 0), score 30 (so 20 ≤ score < 40) and 0 repair attempts, the code
returns the numeric `min 0 2 = 0` (UNKNOWN), not the more urgent of base
and HIGH, which in the spec's urgency order is HIGH = 2. -/
theorem C5_counterexample :
    (20 : ℚ) ≤ 30 ∧ (30 : ℚ) < 40 ∧ (0 : Int) < 2 ∧
    priority_map_get "Unknown State" = FailurePriority.UNKNOWN ∧
    spec_more_urgent (priority_map_get "Unknown State") FailurePriority.HIGH =
      FailurePriority.HIGH ∧
    calculate_repair_priority "Unknown State" 30 0 = FailurePriority.UNKNOWN ∧
    calculate_repair_priority "Unknown State" 30 0 ≠
      spec_more_urgent (priority_map_get "Unknown State") FailurePriority.HIGH := by
  refine ⟨by norm_num, by norm_num, by norm_num, by decide, by decide, by decide, by decide⟩

/-- C5 amended: for repair-attempt counts below 2 the override rules only
tighten (never loosen) the priority in the spec's urgency order, and for
20 ≤ score < 40 the returned priority equals the numeric
`min base HIGH`; this is the more urgent of the two whenever the base
priority is not UNKNOWN, but for base UNKNOWN the numeric min yields
UNKNOWN (0), not HIGH. -/
theorem C5_score_override_tightens (c : String) (s : ℚ) (a : Int) (ha : a < 2) :
    spec_urgency_rank (calculate_repair_priority c s a) ≤
      spec_urgency_rank (priority_map_get c) ∧
    (20 ≤ s → s < 40 →
      calculate_repair_priority c s a = min (priority_map_get c) FailurePriority.HIGH) ∧
    (20 ≤ s → s < 40 → priority_map_get c ≠ FailurePriority.UNKNOWN →
      calculate_repair_priority c s a =
        spec_more_urgent (priority_map_get c) FailurePriority.HIGH) := by
  have hle := priority_map_get_le_three c
  have hna : ¬ (a ≥ 2) := by omega
  unfold calculate_repair_priority
  simp only [hna, if_false]
  refine ⟨?_, ?_, ?_⟩
  · split_ifs with h1 h2
    · interval_cases h : priority_map_get c <;>
        simp [spec_urgency_rank, FailurePriority.CRITICAL]
    · interval_cases h : priority_map_get c <;>
        simp [spec_urgency_rank, FailurePriority.HIGH]
    · exact le_refl _
  · intro h20 h40
    have h1 : ¬ (s < 20) := by linarith
    have h2 : s < 40 := h40
    simp [h1, h2]
  · intro h20 h40 hb
    have h1 : ¬ (s < 20) := by linarith
    simp only [h1, if_false, h40, if_true]
    interval_cases h : priority_map_get c
    · exact absurd (show (0 : Nat) = FailurePriority.UNKNOWN from rfl) hb
    · simp [spec_more_urgent, spec_urgency_rank, FailurePriority.HIGH]
    · simp [spec_more_urgent, spec_urgency_rank, FailurePriority.HIGH]
    · simp [spec_more_urgent, spec_urgency_rank, FailurePriority.HIGH]

/-- C5 witness: the amended theorem applied at a concrete input. -/
theorem C5_score_override_tightens_witness :
    spec_urgency_rank (calculate_repair_priority "Resource Bottleneck" 35 0) ≤
      spec_urgency_rank (priority_map_get "Resource Bottleneck") ∧
    calculate_repair_priority "Resource Bottleneck" 35 0 =
      min (priority_map_get "Resource Bottleneck") FailurePriority.HIGH ∧
    calculate_repair_priority "Resource Bottleneck" 35 0 =
      spec_more_urgent (priority_map_get "Resource Bottleneck") FailurePriority.HIGH := by
  have h := C5_score_override_tightens "Resource Bottleneck" 35 0 (by norm_num)
  exact ⟨h.1, h.2.1 (by norm_num) (by norm_num),
    h.2.2 (by norm_num) (by norm_num) (by decide)⟩

/-- `should_replace_instance` unfolded to its two conditions. -/
theorem should_replace_instance_iff (s : ℚ) (a : Int) :
    should_replace_instance s a = true ↔ (s < 30 ∨ 2 ≤ a) := by
  unfold should_replace_instance
  split_ifs with h1 h2 <;> simp_all

/-- `should_skip_repair` unfolded to its three conditions. -/
theorem should_skip_repair_iff (c : String) (s : ℚ) (cfg : InstanceConfig) :
    should_skip_repair c s cfg = true ↔
      (cfg.skip_recovery.getD false = true ∨ s < 10 ∨
        c = "OS-level Failure" ∨ c = "Disk Corruption") := by
  unfold should_skip_repair
  split_ifs with h1 h2 h3 <;> simp_all

/-- C3: whenever the decision is not skipped, score < 30 or at least two
repair attempts force action "replace" with timeout 1800 seconds, and
otherwise the action is "repair" with the classification's repair timeout. -/
theorem C3_replace_dominance (c : String) (s : ℚ) (a : Int) (cfg : InstanceConfig)
    (h : (AutoHealDecision.decide c s a cfg).skip = false) :
    ((s < 30 ∨ 2 ≤ a) →
      (AutoHealDecision.decide c s a cfg).action = some "replace" ∧
        (AutoHealDecision.decide c s a cfg).timeout_seconds = 1800) ∧
    (¬ (s < 30 ∨ 2 ≤ a) →
      (AutoHealDecision.decide c s a cfg).action = some "repair" ∧
        (AutoHealDecision.decide c s a cfg).timeout_seconds = get_repair_timeout c) := by
  by_cases hsk : should_skip_repair c s cfg = true
  · exfalso
    unfold AutoHealDecision.decide at h
    simp [hsk] at h
  · constructor
    · intro hrep
      have hr : should_replace_instance s a = true := (should_replace_instance_iff s a).mpr hrep
      unfold AutoHealDecision.decide
      simp [hsk, hr]
    · intro hrep
      have hr : should_replace_instance s a = false := by
        rcases Bool.eq_false_or_eq_true (should_replace_instance s a) with ht | hf
        · exact absurd ((should_replace_instance_iff s a).mp ht) hrep
        · exact hf
      unfold AutoHealDecision.decide
      simp [hsk, hr]

/-- C3 witness: a non-skipped decision at score 35 with no attempts repairs
with the classification timeout, and at score 20 it replaces. -/
theorem C3_replace_dominance_witness :
    ((AutoHealDecision.decide "Agent Failure" 35 0 { skip_recovery := none }).action =
        some "repair" ∧
      (AutoHealDecision.decide "Agent Failure" 35 0 { skip_recovery := none }).timeout_seconds =
        get_repair_timeout "Agent Failure") ∧
    ((AutoHealDecision.decide "Agent Failure" 20 0 { skip_recovery := none }).action =
        some "replace" ∧
      (AutoHealDecision.decide "Agent Failure" 20 0 { skip_recovery := none }).timeout_seconds =
        1800) := by
  constructor
  · exact (C3_replace_dominance "Agent Failure" 35 0 { skip_recovery := none }
      (by decide)).2 (by norm_num)
  · exact (C3_replace_dominance "Agent Failure" 20 0 { skip_recovery := none }
      (by decide)).1 (by norm_num)

/-- C1 counterexample: an instance with diagnostic score 5 (< 10) and
`skip_recovery` false is handed to the remediation execution path, which
issues a replace action — the handler never consults `should_skip_repair`. -/
theorem C1_counterexample :
    (5 : ℚ) < 10 ∧
    auto_heal_handler_action { skip_recovery := some false } false 5 0 =
      HandlerOutcome.act "replace" := by
  refine ⟨by norm_num, by decide⟩

/-- C1 amended: the decision returned by `AutoHealDecision.decide` has
skip = true and action = none whenever `skip_recovery` is set, the score is
below 10, or the classification is OS-level Failure or Disk Corruption;
the remediation execution path, however, issues no repair or replace only
in the `skip_recovery` case. -/
theorem C1_skip_dominance (c : String) (s : ℚ) (a : Int) (cfg : InstanceConfig)
    (cool : Bool)
    (h : cfg.skip_recovery.getD false = true ∨ s < 10 ∨
      c = "OS-level Failure" ∨ c = "Disk Corruption") :
    (AutoHealDecision.decide c s a cfg).skip = true ∧
    (AutoHealDecision.decide c s a cfg).action = none ∧
    (cfg.skip_recovery.getD false = true →
      auto_heal_handler_action cfg cool s a = HandlerOutcome.skippedConfig) := by
  have hsk : should_skip_repair c s cfg = true := (should_skip_repair_iff c s cfg).mpr h
  refine ⟨?_, ?_, ?_⟩
  · unfold AutoHealDecision.decide
    simp [hsk]
  · unfold AutoHealDecision.decide
    simp [hsk]
  · intro hflag
    unfold auto_heal_handler_action
    simp [hflag]

/-- C1 witness: the amended theorem applied at concrete inputs. -/
theorem C1_skip_dominance_witness :
    (AutoHealDecision.decide "Disk Corruption" 5 0 { skip_recovery := some false }).skip =
        true ∧
    (AutoHealDecision.decide "Disk Corruption" 5 0 { skip_recovery := some false }).action =
        none ∧
    auto_heal_handler_action { skip_recovery := some true } false 50 0 =
      HandlerOutcome.skippedConfig := by
  have h1 := C1_skip_dominance "Disk Corruption" 5 0 { skip_recovery := some false } false
    (Or.inr (Or.inl (by norm_num)))
  have h2 := C1_skip_dominance "Unknown State" 50 0 { skip_recovery := some true } false
    (Or.inl (by decide))
  exact ⟨h1.1, h1.2.1, h2.2.2 (by decide)⟩

/-- Modelled from the spec's penalty table: the sum of all applicable fixed
penalties (applicationFailure 40; cpuUsage>90 20; 80<cpuUsage≤90 10;
memoryUsage>90 20; 80<memoryUsage≤90 10; diskCorruption 30;
networkDegradation 15; ssmAgentFailure 25; cloudwatchAgentFailure 10),
with missing fields contributing no penalty. -/
def spec_penalty_total (d : Diagnostics) : ℚ :=
  (if d.application_failure.getD false then (40 : ℚ) else 0) +
    ((if d.cpu_usage.getD 0 > 90 then (20 : ℚ) else 0) +
      (if 80 < d.cpu_usage.getD 0 ∧ d.cpu_usage.getD 0 ≤ 90 then (10 : ℚ) else 0)) +
    ((if d.memory_usage.getD 0 > 90 then (20 : ℚ) else 0) +
      (if 80 < d.memory_usage.getD 0 ∧ d.memory_usage.getD 0 ≤ 90 then (10 : ℚ) else 0)) +
    (if d.disk_corruption.getD false then (30 : ℚ) else 0) +
    (if d.network_degradation.getD false then (15 : ℚ) else 0) +
    (if d.ssm_agent_failure.getD false then (25 : ℚ) else 0) +
    (if d.cloudwatch_agent_failure.getD false then (10 : ℚ) else 0)

/-- The if/elif usage penalty of the code equals the two-condition additive
form of the spec's table. -/
theorem usage_penalty_split (s u : ℚ) :
    (if u > 90 then s - 20 else if u > 80 then s - 10 else s) =
      s - ((if u > 90 then (20 : ℚ) else 0) +
        (if 80 < u ∧ u ≤ 90 then (10 : ℚ) else 0)) := by
  rcases lt_or_le 90 u with h90 | h90
  · have hn : ¬ (80 < u ∧ u ≤ 90) := fun hc => absurd hc.2 (not_le.mpr h90)
    rw [if_pos h90, if_pos h90, if_neg hn]
    ring
  · have hn90 : ¬ (90 : ℚ) < u := not_lt.mpr h90
    rcases lt_or_le 80 u with h80 | h80
    · have hp : 80 < u ∧ u ≤ 90 := ⟨h80, h90⟩
      rw [if_neg hn90, if_pos h80, if_neg hn90, if_pos hp]
      ring
    · have hn80 : ¬ (80 : ℚ) < u := not_lt.mpr h80
      have hn : ¬ (80 < u ∧ u ≤ 90) := fun hc => absurd hc.1 hn80
      rw [if_neg hn90, if_neg hn80, if_neg hn90, if_neg hn]
      ring

/-- A conditional subtraction equals subtracting a conditional penalty. -/
theorem flag_penalty_split (b : Bool) (s p : ℚ) :
    (if b then s - p else s) = s - (if b then p else 0) := by
  cases b <;> simp

/-- The code's diagnostic score equals 100 minus the spec's penalty total,
clamped at 0. -/
theorem calculate_diagnostic_score_eq (d : Diagnostics) :
    calculate_diagnostic_score d = max 0 (100 - spec_penalty_total d) := by
  unfold calculate_diagnostic_score spec_penalty_total
  simp only [flag_penalty_split]
  rw [usage_penalty_split, usage_penalty_split]
  congr 1
  ring

/-- The spec's penalty total is never negative. -/
theorem spec_penalty_total_nonneg (d : Diagnostics) : 0 ≤ spec_penalty_total d := by
  unfold spec_penalty_total
  repeat' apply add_nonneg
  all_goals split_ifs <;> norm_num

/-- C4: for every diagnostics input, `calculate_diagnostic_score` equals
100 minus the sum of all applicable fixed penalties, clamped to a floor of
0, with missing fields contributing no penalty; consequently the result
always lies in [0, 100]. -/
theorem C4_diagnostic_score_spec :
    (∀ d : Diagnostics,
      calculate_diagnostic_score d = max 0 (100 - spec_penalty_total d) ∧
        0 ≤ calculate_diagnostic_score d ∧ calculate_diagnostic_score d ≤ 100) ∧
    calculate_diagnostic_score {} = 100 := by
  constructor
  · intro d
    refine ⟨calculate_diagnostic_score_eq d, ?_, ?_⟩
    · rw [calculate_diagnostic_score_eq d]
      exact le_max_left _ _
    · rw [calculate_diagnostic_score_eq d]
      have h := spec_penalty_total_nonneg d
      exact max_le (by norm_num) (by linarith)
  · rfl

/-- Modelled from the spec's words "first match wins, evaluated in this
fixed order": take the label of the first set flag, defaulting to
"Unknown State". -/
def spec_first_match : List (Bool × String) → String
  | [] => "Unknown State"
  | (b, label) :: rest => if b then label else spec_first_match rest

/-- C6: the failure classification is first-match-wins over the flags in
the fixed order applicationFailure, diskCorruption, osLevelFailure,
networkDegradation, agentFailure, resourceBottleneck, unknownState, and a
report with no flag set classifies as Unknown State. -/
theorem C6_classification_precedence (d : Diagnostics) :
    classify_failure d = spec_first_match
      [(d.application_failure.getD false, "Application Failure"),
       (d.disk_corruption.getD false, "Disk Corruption"),
       (d.os_level_failure.getD false, "OS-level Failure"),
       (d.network_degradation.getD false, "Network Degradation"),
       (d.agent_failure.getD false, "Agent Failure"),
       (d.resource_bottleneck.getD false, "Resource Bottleneck"),
       (d.unknown_state.getD false, "Unknown State")] ∧
    (d.application_failure.getD false = false →
      d.disk_corruption.getD false = false →
      d.os_level_failure.getD false = false →
      d.network_degradation.getD false = false →
      d.agent_failure.getD false = false →
      d.resource_bottleneck.getD false = false →
      d.unknown_state.getD false = false →
      classify_failure d = "Unknown State") := by
  constructor
  · simp [classify_failure, spec_first_match]
  · intro h1 h2 h3 h4 h5 h6 h7
    simp [classify_failure, h1, h2, h3, h4, h5, h6, h7]

/-- C6 witness: the theorem applied to the empty report. -/
theorem C6_classification_precedence_witness :
    classify_failure {} = "Unknown State" :=
  (C6_classification_precedence {}).2 rfl rfl rfl rfl rfl rfl rfl

/-- A history that alternates on every sample has one state change per
adjacent pair. -/
theorem alternates_state_changes (l : List HealthEvent) (h : alternates l = true) :
    state_changes l = l.length - 1 := by
  induction l with
  | nil => simp [state_changes]
  | cons a t ih =>
    cases t with
    | nil => simp [state_changes]
    | cons b rest =>
      unfold alternates at h
      rw [Bool.and_eq_true] at h
      obtain ⟨hne, hrest⟩ := h
      have ihr := ih hrest
      have hne' : a.state.getD "" ≠ b.state.getD "" := by simpa using hne
      simp only [state_changes, List.length_cons] at *
      rw [if_pos hne']
      omega

/-- C7: with the default threshold 3, flapping is reported iff the history
has at least 6 samples and at least 3 adjacent state changes; an
alternating history of at least 6 samples flaps, and a history with at
most 1 state change never does. -/
theorem C7_flapping (hist : List HealthEvent) :
    (check_flapping hist 3 = true ↔ 6 ≤ hist.length ∧ 3 ≤ state_changes hist) ∧
    (alternates hist = true → 6 ≤ hist.length → check_flapping hist 3 = true) ∧
    (state_changes hist ≤ 1 → check_flapping hist 3 = false) := by
  refine ⟨?_, ?_, ?_⟩
  · unfold check_flapping
    split_ifs with h1 h2 <;> simp <;> omega
  · intro halt hlen
    have hc := alternates_state_changes hist halt
    unfold check_flapping
    rw [if_neg (by omega), if_pos (by omega)]
  · intro hch
    unfold check_flapping
    split_ifs with h1 h2
    · rfl
    · omega
    · rfl

/-- C7 witness: a 6-sample alternating history flaps; a 2-sample history
with no transition does not. -/
theorem C7_flapping_witness :
    check_flapping [⟨some "healthy"⟩, ⟨some "unhealthy"⟩, ⟨some "healthy"⟩,
      ⟨some "unhealthy"⟩, ⟨some "healthy"⟩, ⟨some "unhealthy"⟩] 3 = true ∧
    check_flapping [⟨some "healthy"⟩, ⟨some "healthy"⟩] 3 = false := by
  constructor
  · exact (C7_flapping _).2.1 (by decide) (by decide)
  · exact (C7_flapping [⟨some "healthy"⟩, ⟨some "healthy"⟩]).2.2 (by decide)

/-- C9: the diagnostics handler triggers the auto-heal stage iff the
diagnostic score is below 70 or the classification is Application Failure,
OS-level Failure or Disk Corruption. -/
theorem C9_auto_heal_trigger (d : Diagnostics) :
    diagnostics_triggers_auto_heal d = true ↔
      (calculate_diagnostic_score d < 70 ∨
        classify_failure d = "Application Failure" ∨
        classify_failure d = "OS-level Failure" ∨
        classify_failure d = "Disk Corruption") := by
  unfold diagnostics_triggers_auto_heal
  dsimp only
  split_ifs with h <;> simp [h]

/-- C8 counterexample: when the log-anomaly probe raises, the check is
treated as passed ("assume passed (non-critical)"), it does not join
`failed_checks`, and with the other four probes passing the instance is
re-registered even though the log check never genuinely passed. -/
theorem C8_counterexample :
    (check_log_anomalies (.error "probe failure")).passed = true ∧
    run_verification_checks
      { ssm_online := .ok [some "Online"], app_health := .ok "200",
        resource_usage := .ok (50, 50), log_anomalies := .error "probe failure",
        lb_health_simulation := .ok () } =
      { all_checks_passed := true, failed_checks := [] } ∧
    verify_reregisters
      { ssm_online := .ok [some "Online"], app_health := .ok "200",
        resource_usage := .ok (50, 50), log_anomalies := .error "probe failure",
        lb_health_simulation := .ok () } = true := by
  refine ⟨rfl, by decide, by decide⟩

/-- C8 amended: the ssm_online, app_health, resource_usage and
lb_health_simulation checks treat a raised probe error as failed and join
`failed_checks`; the log_anomalies check treats a raised probe error as
passed, so it never joins `failed_checks`; re-registration happens iff
`failed_checks` is empty — which therefore does not require the log check
to have genuinely passed. -/
theorem C8_probe_error_handling (probes : VerifyProbes) :
    (∀ e, probes.ssm_online = .error e →
      "ssm_online" ∈ (run_verification_checks probes).failed_checks) ∧
    (∀ e, probes.app_health = .error e →
      "app_health" ∈ (run_verification_checks probes).failed_checks) ∧
    (∀ e, probes.resource_usage = .error e →
      "resource_usage" ∈ (run_verification_checks probes).failed_checks) ∧
    (∀ e, probes.lb_health_simulation = .error e →
      "lb_health_simulation" ∈ (run_verification_checks probes).failed_checks) ∧
    (∀ e, probes.log_anomalies = .error e →
      (check_log_anomalies probes.log_anomalies).passed = true ∧
        "log_anomalies" ∉ (run_verification_checks probes).failed_checks) ∧
    ((run_verification_checks probes).all_checks_passed = true ↔
      (run_verification_checks probes).failed_checks = []) := by
  refine ⟨?_, ?_, ?_, ?_, ?_, ?_⟩
  · intro e h
    simp only [run_verification_checks, h, check_ssm_online]
    split_ifs <;> simp_all
  · intro e h
    simp only [run_verification_checks, h, check_app_health_endpoint]
    split_ifs <;> simp_all
  · intro e h
    simp only [run_verification_checks, h, check_resource_usage]
    split_ifs <;> simp_all
  · intro e h
    simp only [run_verification_checks, h, simulate_lb_health_check]
    split_ifs <;> simp_all
  · intro e h
    refine ⟨by simp [h, check_log_anomalies], ?_⟩
    simp only [run_verification_checks, h, check_log_anomalies]
    split_ifs <;> simp_all
  · have hrfl : (run_verification_checks probes).all_checks_passed =
        ((run_verification_checks probes).failed_checks.length == 0) := rfl
    rw [hrfl]
    simp [List.length_eq_zero]

/-- C8 witness: the amended theorem applied to a run whose ssm probe and
log probe both raise. -/
theorem C8_probe_error_handling_witness :
    "ssm_online" ∈ (run_verification_checks
      { ssm_online := .error "timeout", app_health := .ok "200",
        resource_usage := .ok (50, 50), log_anomalies := .error "boom",
        lb_health_simulation := .ok () }).failed_checks ∧
    "log_anomalies" ∉ (run_verification_checks
      { ssm_online := .error "timeout", app_health := .ok "200",
        resource_usage := .ok (50, 50), log_anomalies := .error "boom",
        lb_health_simulation := .ok () }).failed_checks := by
  have h := C8_probe_error_handling
    { ssm_online := .error "timeout", app_health := .ok "200",
      resource_usage := .ok (50, 50), log_anomalies := .error "boom",
      lb_health_simulation := .ok () }
  exact ⟨h.1 "timeout" rfl, (h.2.2.2.2.1 "boom" rfl).2⟩

end AutoHealSpec
